import Mathlib

/-!
Verification of `scripts/generate-icon.py`.

A shallow embedding of the BackupForce icon generator.  The script builds an
RGBA canvas per requested size, paints a fixed sequence of shapes on it with
PIL's `ImageDraw` primitives, and saves the largest canvas as a PNG file and a
multi-resolution ICO file.

Modelling conventions:
* Python floats are modelled as exact rationals (`ℚ`).  Every float operation
  the script performs (`x * s` with `s = size/256`, the gradient
  interpolation, the arc-point formulas) stays far below the magnitudes at
  which IEEE-754 doubles can round across an integer boundary, so truncating
  the exact rational value agrees with truncating the double the script
  computes.
* Python's `int()` truncates toward zero; it is embedded as `pyInt`.
* PIL's rasterizer is library code, not part of this repository.  Pixel
  coverage of each primitive is modelled from the spec by idealized geometric
  tests (the spec: "delegating to a standard image-encoding library").  No
  claim depends on which pixels a primitive covers, only on the structure of
  the draw calls, their coordinates, their colors and the dimensions and mode
  of the canvas.
* `math.cos`/`math.sin` at the ten angles used are embedded as fixed rationals
  agreeing with the doubles to 15+ significant digits; no claim depends on
  their exact values.
-/

unseal Rat.mul Rat.add Rat.sub Rat.inv Rat.ofScientific

namespace IconGen

/-- Python's `int()` on a rational: truncation toward zero. -/
def pyInt (q : ℚ) : Int := if q < 0 then -((-q).floor) else q.floor

/-- `Rat.floor` agrees with the floor of the `FloorRing` structure on `ℚ`. -/
theorem ratFloor_eq_intFloor (q : ℚ) : q.floor = ⌊q⌋ := by
  rw [Rat.floor_def, Rat.floor_def']

/-- `pyInt` expressed with `Int.floor`. -/
theorem pyInt_def (q : ℚ) : pyInt q = if q < 0 then -⌊-q⌋ else ⌊q⌋ := by
  unfold pyInt
  rw [ratFloor_eq_intFloor, ratFloor_eq_intFloor]

/-- On nonnegative rationals, `int()` is the floor. -/
theorem pyInt_of_nonneg {q : ℚ} (h : 0 ≤ q) : pyInt q = ⌊q⌋ := by
  rw [pyInt_def, if_neg (not_lt.mpr h)]

/-- `s = size / 256` (line 14 of the script): the scale factor. -/
def sf (size : Nat) : ℚ := (size : ℚ) / 256

/-- An RGBA color: red, green, blue, alpha. -/
abbrev Color := Nat × Nat × Nat × Nat

/-- PIL accepts an RGB triple as fill on an RGBA image and treats it as fully
opaque; the script passes plain triples for the database colors. -/
def rgb (r g bl : Nat) : Color := (r, g, bl, 255)

/-- One `ImageDraw` call issued by `create_icon`, with the exact arguments the
script passes (bounding boxes, vertex lists, fill/outline colors, widths). -/
inductive DrawOp where
  | ellipse (x0 y0 x1 y1 : Int) (fill : Color)
  | ellipseOutline (x0 y0 x1 y1 : Int) (outline : Color) (width : Int)
  | polygon (pts : List (Int × Int)) (fill : Color)
  | rectangle (x0 y0 x1 y1 : Int) (fill : Color)
  | line (pts : List (Int × Int)) (fill : Color) (width : Int)
  deriving DecidableEq

/-- A PIL image: mode string, dimensions, and the pixel map. -/
structure Image where
  mode : String
  width : Nat
  height : Nat
  px : Int → Int → Color

instance : Inhabited Image := ⟨⟨"RGBA", 0, 0, fun _ _ => (0, 0, 0, 0)⟩⟩

/-- `Image.new(mode, (w, h), color)`: a canvas with every pixel set to `c`. -/
def imageNew (mode : String) (w h : Nat) (c : Color) : Image :=
  ⟨mode, w, h, fun _ _ => c⟩

/-- Modelled from the spec: PIL's filled-ellipse rasterization (library code)
idealized as the interior test of the ellipse inscribed in the bounding box. -/
def inEllipse (x0 y0 x1 y1 x y : Int) : Bool :=
  let a := x1 - x0
  let bl := y1 - y0
  let dx := 2 * x - (x0 + x1)
  let dy := 2 * y - (y0 + y1)
  decide (dx * dx * (bl * bl) + dy * dy * (a * a) ≤ a * a * (bl * bl))

/-- The edge list of a closed polygon: consecutive vertex pairs, wrapping. -/
def polyEdges (pts : List (Int × Int)) : List ((Int × Int) × (Int × Int)) :=
  match pts with
  | [] => []
  | p :: rest => (p :: rest).zip (rest ++ [p])

/-- Whether a horizontal ray from `(x, y)` crosses the edge `e`. -/
def edgeCrosses (x y : Int) (e : (Int × Int) × (Int × Int)) : Bool :=
  let px := e.1.1
  let py := e.1.2
  let qx := e.2.1
  let qy := e.2.2
  if py ≤ y ∧ y < qy then decide (0 < (qx - px) * (y - py) - (x - px) * (qy - py))
  else if qy ≤ y ∧ y < py then decide ((qx - px) * (y - py) - (x - px) * (qy - py) < 0)
  else false

/-- Modelled from the spec: PIL's polygon fill (library code) idealized as the
even-odd crossing-number interior test. -/
def inPolygon (pts : List (Int × Int)) (x y : Int) : Bool :=
  (polyEdges pts).countP (edgeCrosses x y) % 2 == 1

/-- Modelled from the spec: PIL's filled rectangle covers its bounding box. -/
def inRectangle (x0 y0 x1 y1 x y : Int) : Bool :=
  decide (x0 ≤ x ∧ x ≤ x1 ∧ y0 ≤ y ∧ y ≤ y1)

/-- Whether `(x, y)` lies within distance `w/2` of the segment `p`-`q`
(squared distances, cleared of denominators). -/
def nearSegment (w : Int) (p q : Int × Int) (x y : Int) : Bool :=
  let dx := q.1 - p.1
  let dy := q.2 - p.2
  let ux := x - p.1
  let uy := y - p.2
  let len2 := dx * dx + dy * dy
  let t := max 0 (min (ux * dx + uy * dy) len2)
  let ex := ux * len2 - t * dx
  let ey := uy * len2 - t * dy
  if len2 = 0 then decide (4 * (ux * ux + uy * uy) ≤ w * w)
  else decide (4 * (ex * ex + ey * ey) ≤ w * w * (len2 * len2))

/-- Modelled from the spec: PIL's wide-line rasterization (library code)
idealized as proximity to any segment of the polyline. -/
def nearPolyline (pts : List (Int × Int)) (w : Int) (x y : Int) : Bool :=
  (pts.zip pts.tail).any fun e => nearSegment w e.1 e.2 x y

/-- The set of pixels a draw call writes, as a decidable test. -/
def covers (op : DrawOp) (x y : Int) : Bool :=
  match op with
  | .ellipse x0 y0 x1 y1 _ => inEllipse x0 y0 x1 y1 x y
  | .ellipseOutline x0 y0 x1 y1 _ w =>
      inEllipse x0 y0 x1 y1 x y && !inEllipse (x0 + w) (y0 + w) (x1 - w) (y1 - w) x y
  | .polygon pts _ => inPolygon pts x y
  | .rectangle x0 y0 x1 y1 _ => inRectangle x0 y0 x1 y1 x y
  | .line pts _ w => nearPolyline pts w x y

/-- The color a draw call writes. -/
def opPaint : DrawOp → Color
  | .ellipse _ _ _ _ f => f
  | .ellipseOutline _ _ _ _ c _ => c
  | .polygon _ f => f
  | .rectangle _ _ _ _ f => f
  | .line _ f _ => f

/-- Execute one draw call: overwrite the covered pixels (PIL's `ImageDraw`
draws over an RGBA image without blending). Dimensions and mode are kept. -/
def applyOp (im : Image) (op : DrawOp) : Image :=
  { im with px := fun x y => if covers op x y then opPaint op else im.px x y }

/-! ## The geometry of `create_icon`, line by line -/

/-- `color_top = (26, 31, 53)` -/
def colorTop : Nat × Nat × Nat := (26, 31, 53)

/-- `color_bottom = (74, 100, 145)` -/
def colorBottom : Nat × Nat × Nat := (74, 100, 145)

/-- `progress = (radius - r) / radius` -/
def gradProgress (radius r : Nat) : ℚ := ((radius : ℚ) - (r : ℚ)) / (radius : ℚ)

/-- One channel of the gradient ring color:
`int(color_top[i] + (color_bottom[i] - color_top[i]) * progress)`.
The value is provably in `[ct, cb]`, so the `Int.toNat` cast into a color
channel loses nothing. -/
def gradChannel (radius r ct cb : Nat) : Nat :=
  (pyInt ((ct : ℚ) + ((cb : ℚ) - (ct : ℚ)) * gradProgress radius r)).toNat

/-- `color + (255,)`: the full fill of the ring at radius `r`. -/
def gradFill (radius r : Nat) : Color :=
  (gradChannel radius r colorTop.1 colorBottom.1,
   gradChannel radius r colorTop.2.1 colorBottom.2.1,
   gradChannel radius r colorTop.2.2 colorBottom.2.2, 255)

/-- `center = size // 2` -/
def center (size : Nat) : Int := ((size / 2 : Nat) : Int)

/-- `radius = int(120 * s)` -/
def radius (size : Nat) : Int := pyInt (120 * sf size)

/-- The loop bound of `range(radius, 0, -1)` as a natural number
(`radius` is nonnegative, so the cast loses nothing). -/
def radiusN (size : Nat) : Nat := (radius size).toNat

/-- The gradient background circle: one filled ellipse per
`r in range(radius, 0, -1)`, from the rim inward. -/
def discOps (size : Nat) : List DrawOp :=
  (List.range (radiusN size)).map fun k =>
    DrawOp.ellipse (center size - (radiusN size - k : Nat)) (center size - (radiusN size - k : Nat))
      (center size + (radiusN size - k : Nat)) (center size + (radiusN size - k : Nat))
      (gradFill (radiusN size) (radiusN size - k))

/-- `star_positions = [(60, 50, 2), (180, 40, 1.5), (200, 70, 2), (45, 80, 1), (150, 55, 1.5)]` -/
def starPositions : List (ℚ × ℚ × ℚ) :=
  [(60, 50, 2), (180, 40, 1.5), (200, 70, 2), (45, 80, 1), (150, 55, 1.5)]

/-- `sr = max(1, int(r*s))`: the clamped star radius. -/
def starRadius (size : Nat) (r : ℚ) : Int := max 1 (pyInt (r * sf size))

/-- The five star dots. -/
def starOps (size : Nat) : List DrawOp :=
  starPositions.map fun t =>
    let sx := pyInt (t.1 * sf size)
    let sy := pyInt (t.2.1 * sf size)
    let sr := starRadius size t.2.2
    DrawOp.ellipse (sx - sr) (sy - sr) (sx + sr) (sy + sr) (255, 255, 255, 200)

/-- `(int(x*s), int(y*s))`: how every vertex list is scaled. -/
def scalePt (size : Nat) (p : ℚ × ℚ) : Int × Int :=
  (pyInt (p.1 * sf size), pyInt (p.2 * sf size))

/-- `mountain1_points` -/
def mountain1Points : List (ℚ × ℚ) := [(30, 180), (90, 90), (130, 140), (170, 85), (230, 180)]

/-- `snow1` -/
def snow1 : List (ℚ × ℚ) := [(90, 90), (80, 110), (100, 110)]

/-- `snow2` -/
def snow2 : List (ℚ × ℚ) := [(170, 85), (158, 108), (182, 108)]

/-- Back mountain (fill `(61, 90, 128, 200)`) and its two snow caps
(fill `(224, 232, 240, 180)`). -/
def backMountainOps (size : Nat) : List DrawOp :=
  [DrawOp.polygon (mountain1Points.map (scalePt size)) (61, 90, 128, 200),
   DrawOp.polygon (snow1.map (scalePt size)) (224, 232, 240, 180),
   DrawOp.polygon (snow2.map (scalePt size)) (224, 232, 240, 180)]

/-- `mountain2_points` -/
def mountain2Points : List (ℚ × ℚ) :=
  [(10, 200), (70, 120), (110, 160), (128, 130), (150, 155), (190, 115), (250, 200)]

/-- `snow3` -/
def snow3 : List (ℚ × ℚ) := [(70, 120), (58, 145), (82, 145)]

/-- `snow4` -/
def snow4 : List (ℚ × ℚ) := [(128, 130), (118, 150), (138, 150)]

/-- `snow5` -/
def snow5 : List (ℚ × ℚ) := [(190, 115), (178, 142), (202, 142)]

/-- Front mountain (fill `(92, 122, 153, 255)`) and its three snow caps
(fill `(255, 255, 255, 230)`), drawn in the loop over `[snow3, snow4, snow5]`. -/
def frontMountainOps (size : Nat) : List DrawOp :=
  [DrawOp.polygon (mountain2Points.map (scalePt size)) (92, 122, 153, 255),
   DrawOp.polygon (snow3.map (scalePt size)) (255, 255, 255, 230),
   DrawOp.polygon (snow4.map (scalePt size)) (255, 255, 255, 230),
   DrawOp.polygon (snow5.map (scalePt size)) (255, 255, 255, 230)]

/-- `db_color = (0, 212, 170)` -/
def dbColor : Color := rgb 0 212 170

/-- `db_highlight = (0, 245, 196)` -/
def dbHighlight : Color := rgb 0 245 196

/-- `db_shadow = (0, 136, 102)` -/
def dbShadow : Color := rgb 0 136 102

/-- `width=max(1, int(1.5*s))`: the clamped width of the horizontal cylinder line. -/
def dbLineWidth (size : Nat) : Int := max 1 (pyInt (1.5 * sf size))

/-- One database cylinder at base line `y_base`: bottom ellipse (shadow), body
rectangle, top ellipse (highlight), horizontal line. -/
def cylinderOps (size : Nat) (yBase : ℚ) : List DrawOp :=
  let cx := pyInt (128 * sf size)
  let rx := pyInt (45 * sf size)
  let ry := pyInt (12 * sf size)
  let cylHeight := pyInt (25 * sf size)
  let y := pyInt (yBase * sf size)
  let lineY := pyInt ((yBase - 12) * sf size)
  [DrawOp.ellipse (cx - rx) (y - ry) (cx + rx) (y + ry) dbShadow,
   DrawOp.rectangle (cx - rx) (y - cylHeight) (cx + rx) y dbColor,
   DrawOp.ellipse (cx - rx) (y - cylHeight - ry) (cx + rx) (y - cylHeight + ry) dbHighlight,
   DrawOp.line [(cx - rx + pyInt (5 * sf size), lineY), (cx + rx - pyInt (5 * sf size), lineY)]
     dbShadow (dbLineWidth size)]

/-- The three stacked cylinders, `for i, y_base in enumerate([220, 195, 170])`:
bottom to top. -/
def dbStackOps (size : Nat) : List DrawOp :=
  cylinderOps size 220 ++ cylinderOps size 195 ++ cylinderOps size 170

/-- `arrow_color = (255, 255, 255, 230)` -/
def arrowColor : Color := (255, 255, 255, 230)

/-- Fixed rationals standing in for `math.cos(math.radians(a))` at the ten
angles used.  They agree with the IEEE-754 doubles to 15+ significant digits;
no theorem below depends on their exact values. -/
def cosDeg (a : Nat) : ℚ :=
  if a = 0 then 1
  else if a = 10 then 0.984807753012208
  else if a = 20 then 0.9396926207859084
  else if a = 30 then 0.8660254037844387
  else if a = 40 then 0.766044443118978
  else if a = 50 then 0.6427876096865393
  else if a = 60 then 0.5
  else if a = 70 then 0.3420201433256688
  else if a = 80 then 0.1736481776669304
  else 0

/-- Fixed rationals standing in for `math.sin(math.radians(a))`, as `cosDeg`. -/
def sinDeg (a : Nat) : ℚ :=
  if a = 0 then 0
  else if a = 10 then 0.1736481776669304
  else if a = 20 then 0.3420201433256687
  else if a = 30 then 0.5
  else if a = 40 then 0.6427876096865393
  else if a = 50 then 0.766044443118978
  else if a = 60 then 0.8660254037844386
  else if a = 70 then 0.9396926207859083
  else if a = 80 then 0.984807753012208
  else 1

/-- `range(0, 91, 10)`: the ten angles 0, 10, ..., 90. -/
def arcAngles : List Nat := List.range' 0 10 10

/-- `width=max(2, int(3*s))`: the clamped arrow-arc line width. -/
def arrowArcWidth (size : Nat) : Int := max 2 (pyInt (3 * sf size))

/-- The right arc polyline: `px = int((180 + 15*cos(rad)) * s)`,
`py = int((167.5 - 22.5*sin(rad)) * s)`. -/
def pointsRight (size : Nat) : List (Int × Int) :=
  arcAngles.map fun a =>
    (pyInt ((180 + 15 * cosDeg a) * sf size), pyInt ((167.5 - 22.5 * sinDeg a) * sf size))

/-- `arrow_head_r = [(178, 140), (185, 148), (175, 150)]` -/
def arrowHeadR : List (ℚ × ℚ) := [(178, 140), (185, 148), (175, 150)]

/-- Right arrow: the arc (guarded by `len(points_right) > 1`) then the head. -/
def rightArrowOps (size : Nat) : List DrawOp :=
  (if 1 < (pointsRight size).length then
    [DrawOp.line (pointsRight size) arrowColor (arrowArcWidth size)]
  else []) ++ [DrawOp.polygon (arrowHeadR.map (scalePt size)) arrowColor]

/-- The left arc polyline: `px = int((76 - 15*cos(rad)) * s)`,
`py = int((177.5 + 22.5*sin(rad)) * s)`. -/
def pointsLeft (size : Nat) : List (Int × Int) :=
  arcAngles.map fun a =>
    (pyInt ((76 - 15 * cosDeg a) * sf size), pyInt ((177.5 + 22.5 * sinDeg a) * sf size))

/-- `arrow_head_l = [(78, 205), (71, 197), (81, 195)]` -/
def arrowHeadL : List (ℚ × ℚ) := [(78, 205), (71, 197), (81, 195)]

/-- Left arrow: the arc (guarded by `len(points_left) > 1`) then the head. -/
def leftArrowOps (size : Nat) : List DrawOp :=
  (if 1 < (pointsLeft size).length then
    [DrawOp.line (pointsLeft size) arrowColor (arrowArcWidth size)]
  else []) ++ [DrawOp.polygon (arrowHeadL.map (scalePt size)) arrowColor]

/-- `bolt_color = (255, 215, 0, 230)` -/
def boltColor : Color := (255, 215, 0, 230)

/-- `bolt_points` -/
def boltPoints : List (ℚ × ℚ) :=
  [(128, 40), (120, 70), (132, 70), (125, 95), (145, 60), (133, 60), (140, 40)]

/-- The lightning bolt polygon. -/
def boltOps (size : Nat) : List DrawOp :=
  [DrawOp.polygon (boltPoints.map (scalePt size)) boltColor]

/-- `border_color = (0, 212, 170)` -/
def borderColor : Color := rgb 0 212 170

/-- `border_width = max(2, int(4 * s))` -/
def borderWidth (size : Nat) : Int := max 2 (pyInt (4 * sf size))

/-- The border circle, drawn as an ellipse outline. -/
def borderOps (size : Nat) : List DrawOp :=
  [DrawOp.ellipseOutline (center size - radius size) (center size - radius size)
    (center size + radius size) (center size + radius size) borderColor (borderWidth size)]

/-- The full, ordered trace of draw calls `create_icon(size)` issues. -/
def createIconOps (size : Nat) : List DrawOp :=
  discOps size ++ starOps size ++ backMountainOps size ++ frontMountainOps size
    ++ dbStackOps size ++ rightArrowOps size ++ leftArrowOps size ++ boltOps size
    ++ borderOps size

/-- `create_icon(size)`: a fresh transparent RGBA canvas with the draw calls
executed in order. -/
def create_icon (size : Nat) : Image :=
  (createIconOps size).foldl applyOp (imageNew "RGBA" size size (0, 0, 0, 0))

/-- The ambient process state a Python function could read or write:
command-line arguments, environment variables, file contents. -/
structure Env where
  argv : List String
  vars : String → Option String
  files : String → Option (List Nat)

/-- `create_icon` threaded through the ambient state: the body contains no
read of `argv`, of an environment variable, or of a file, and no write, so
the state passes through untouched. -/
def create_icon_run (env : Env) (size : Nat) : Image × Env :=
  ((createIconOps size).foldl applyOp (imageNew "RGBA" size size (0, 0, 0, 0)), env)

/-! ## The `main` procedure -/

/-- `sizes = [256, 128, 64, 48, 32, 16]` -/
def iconSizes : List Nat := [256, 128, 64, 48, 32, 16]

/-- `png_path` -/
def pngPath : String := "c:\x5cbackupForce3\x5csrc\x5cmain\x5cresources\x5cimages\x5cbackupforce-icon.png"

/-- `ico_path` -/
def icoPath : String := "c:\x5cbackupForce3\x5csrc\x5cmain\x5cresources\x5cimages\x5cbackupforce-icon.ico"

/-- An observable effect of `main`: a console print or an `img.save(...)`
call (the path, the format, and the optional `sizes=` keyword). -/
inductive Effect where
  | print (msg : String)
  | save (img : Image) (path : String) (format : String) (sizes : Option (List (Nat × Nat)))

/-- `images`: the list built by the loop `for size in sizes: images.append(create_icon(size))`. -/
def mainImages : List Image := iconSizes.map create_icon

/-- The ordered effect trace of `main()`: one print per size (the icon
creation itself is pure), then `images[0].save(png_path, "PNG")`, a print,
`images[0].save(ico_path, format='ICO', sizes=[(s, s) for s in sizes])`,
and two more prints. -/
def mainEffects : List Effect :=
  (iconSizes.map fun n =>
    Effect.print ("Creating " ++ toString n ++ "x" ++ toString n ++ " icon..."))
  ++ [Effect.save mainImages.headI pngPath "PNG" none,
      Effect.print ("Saved PNG: " ++ pngPath),
      Effect.save mainImages.headI icoPath "ICO" (some (iconSizes.map fun n => (n, n))),
      Effect.print ("Saved ICO: " ++ icoPath),
      Effect.print "\n✅ Icon files created successfully!"]

/-- The image payload of a save effect. -/
def savedImage : Effect → Option Image
  | .save img _ _ _ => some img
  | _ => none

/-- The path, format and `sizes=` keyword of a save effect. -/
def saveCall : Effect → Option (String × String × Option (List (Nat × Nat)))
  | .save _ path fmt szs => some (path, fmt, szs)
  | _ => none

/-- Whether an effect is a file-encoding call. -/
def isSave : Effect → Bool
  | .save _ _ _ _ => true
  | _ => false

/-- The images `main` ever hands to a file encoder, in order. -/
def savedImages : List Image := mainEffects.filterMap savedImage

/-- Spec-side definition for the scaling claim: every drawn coordinate is
"the corresponding reference coordinate multiplied by `s = size/256` and
truncated toward zero with `int()`".  To be compared with the inline
`pyInt (x * sf size)` computations of the embedding above. -/
def scaleRef (size : Nat) (q : ℚ) : Int := pyInt (q * (size : ℚ) / 256)

/-! ## Helper lemmas -/

/-- Executing a list of draw calls never changes the canvas width. -/
theorem foldl_applyOp_width (ops : List DrawOp) (im : Image) :
    (ops.foldl applyOp im).width = im.width := by
  induction ops generalizing im with
  | nil => rfl
  | cons op rest ih => rw [List.foldl_cons]; exact ih (applyOp im op)

/-- Executing a list of draw calls never changes the canvas height. -/
theorem foldl_applyOp_height (ops : List DrawOp) (im : Image) :
    (ops.foldl applyOp im).height = im.height := by
  induction ops generalizing im with
  | nil => rfl
  | cons op rest ih => rw [List.foldl_cons]; exact ih (applyOp im op)

/-- Executing a list of draw calls never changes the canvas mode. -/
theorem foldl_applyOp_mode (ops : List DrawOp) (im : Image) :
    (ops.foldl applyOp im).mode = im.mode := by
  induction ops generalizing im with
  | nil => rfl
  | cons op rest ih => rw [List.foldl_cons]; exact ih (applyOp im op)

/-- The canvas `create_icon` returns is `size` pixels wide. -/
theorem create_icon_width (size : Nat) : (create_icon size).width = size :=
  foldl_applyOp_width (createIconOps size) (imageNew "RGBA" size size (0, 0, 0, 0))

/-- The canvas `create_icon` returns is `size` pixels tall. -/
theorem create_icon_height (size : Nat) : (create_icon size).height = size :=
  foldl_applyOp_height (createIconOps size) (imageNew "RGBA" size size (0, 0, 0, 0))

/-- The canvas `create_icon` returns is an RGBA canvas. -/
theorem create_icon_mode (size : Nat) : (create_icon size).mode = "RGBA" :=
  foldl_applyOp_mode (createIconOps size) (imageNew "RGBA" size size (0, 0, 0, 0))

/-- The right arc always has one point per angle in `range(0, 91, 10)`. -/
theorem pointsRight_length (size : Nat) : (pointsRight size).length = 10 := by
  simp [pointsRight, arcAngles]

/-- The left arc always has one point per angle in `range(0, 91, 10)`. -/
theorem pointsLeft_length (size : Nat) : (pointsLeft size).length = 10 := by
  simp [pointsLeft, arcAngles]

/-- The guard `len(points_right) > 1` always succeeds. -/
theorem rightArrowOps_eq (size : Nat) :
    rightArrowOps size =
      [DrawOp.line (pointsRight size) arrowColor (arrowArcWidth size),
       DrawOp.polygon (arrowHeadR.map (scalePt size)) arrowColor] := by
  rw [rightArrowOps, if_pos (by rw [pointsRight_length]; norm_num)]
  rfl

/-- The guard `len(points_left) > 1` always succeeds. -/
theorem leftArrowOps_eq (size : Nat) :
    leftArrowOps size =
      [DrawOp.line (pointsLeft size) arrowColor (arrowArcWidth size),
       DrawOp.polygon (arrowHeadL.map (scalePt size)) arrowColor] := by
  rw [leftArrowOps, if_pos (by rw [pointsLeft_length]; norm_num)]
  rfl

/-- The two file-encoding calls of `main` both receive `images[0]`. -/
theorem savedImages_eq : savedImages = [create_icon 256, create_icon 256] := by
  simp [savedImages, mainEffects, savedImage, mainImages, iconSizes]

/-! ## The claims -/

/-- Claim C3: the program is deterministic and input-free: `create_icon` is a
pure function of its single integer argument, so its result is the same under
any two ambient states, equals the pure `create_icon`, and the ambient state
(arguments, environment variables, files) passes through unchanged. -/
theorem claim3_create_icon_deterministic :
    ∀ (env1 env2 : Env) (size : Nat),
      (create_icon_run env1 size).1 = (create_icon_run env2 size).1
      ∧ (create_icon_run env1 size).1 = create_icon size
      ∧ (create_icon_run env1 size).2 = env1 :=
  fun _ _ _ => ⟨rfl, rfl, rfl⟩

/-- Claim C4: for every requested pixel size, `create_icon` begins by
allocating a size-by-size RGBA canvas in which every pixel is fully
transparent `(0, 0, 0, 0)`, and only then folds the draw calls over it. -/
theorem claim4_canvas_initially_transparent :
    ∀ (size : Nat) (x y : Int),
      create_icon size = (createIconOps size).foldl applyOp (imageNew "RGBA" size size (0, 0, 0, 0))
      ∧ (imageNew "RGBA" size size (0, 0, 0, 0)).mode = "RGBA"
      ∧ (imageNew "RGBA" size size (0, 0, 0, 0)).width = size
      ∧ (imageNew "RGBA" size size (0, 0, 0, 0)).height = size
      ∧ (imageNew "RGBA" size size (0, 0, 0, 0)).px x y = (0, 0, 0, 0) :=
  fun _ _ _ => ⟨rfl, rfl, rfl, rfl, rfl⟩

/-- Claim C10: the image `create_icon` returns has exactly the dimensions
size-by-size and mode RGBA; no draw call changes dimensions or mode of a
canvas; and `create_icon` performs no file I/O (the ambient state, including
the file system, passes through unchanged). -/
theorem claim10_dims_mode_invariant :
    ∀ (size : Nat) (env : Env) (im : Image) (op : DrawOp),
      (create_icon size).width = size
      ∧ (create_icon size).height = size
      ∧ (create_icon size).mode = "RGBA"
      ∧ (applyOp im op).width = im.width
      ∧ (applyOp im op).height = im.height
      ∧ (applyOp im op).mode = im.mode
      ∧ (create_icon_run env size).2 = env :=
  fun size _ _ _ =>
    ⟨create_icon_width size, create_icon_height size, create_icon_mode size,
     rfl, rfl, rfl, rfl⟩

/-- Claim C8: each sync-arrow arc polyline has exactly 10 points (one per
angle in 0, 10, ..., 90), so the guards `len(points_right) > 1` and
`len(points_left) > 1` are always true and both arrows are drawn: each arrow
group is exactly the arc line followed by the head polygon. -/
theorem claim8_arcs_always_drawn :
    ∀ size : Nat,
      (pointsRight size).length = 10
      ∧ (pointsLeft size).length = 10
      ∧ rightArrowOps size =
          [DrawOp.line (pointsRight size) arrowColor (arrowArcWidth size),
           DrawOp.polygon (arrowHeadR.map (scalePt size)) arrowColor]
      ∧ leftArrowOps size =
          [DrawOp.line (pointsLeft size) arrowColor (arrowArcWidth size),
           DrawOp.polygon (arrowHeadL.map (scalePt size)) arrowColor] :=
  fun size =>
    ⟨pointsRight_length size, pointsLeft_length size, rightArrowOps_eq size, leftArrowOps_eq size⟩

/-- Claim C9: for every size at least 1, the clamped drawing dimensions never
collapse to zero: every star radius is at least 1, the cylinder line width is
at least 1, the arrow-arc line width is at least 2, and the border ring width
is at least 2. -/
theorem claim9_clamps_positive :
    ∀ size : Nat, 1 ≤ size →
      (∀ p ∈ starPositions, 1 ≤ starRadius size p.2.2)
      ∧ 1 ≤ dbLineWidth size
      ∧ 2 ≤ arrowArcWidth size
      ∧ 2 ≤ borderWidth size :=
  fun _ _ =>
    ⟨fun _ _ => le_max_left _ _, le_max_left _ _, le_max_left _ _, le_max_left _ _⟩

/-- Witness for C9 at the smallest requested size, 16. -/
theorem claim9_witness :
    1 ≤ 16
    ∧ ((∀ p ∈ starPositions, 1 ≤ starRadius 16 p.2.2)
       ∧ 1 ≤ dbLineWidth 16
       ∧ 2 ≤ arrowArcWidth 16
       ∧ 2 ≤ borderWidth 16) :=
  ⟨by decide, claim9_clamps_positive 16 (by decide)⟩

/-- Claim C5: the draw calls of `create_icon` are exactly, in order: the
gradient background disc, the five stars, the back mountain with its two snow
caps, the front mountain with its three snow caps, the three database
cylinders from bottom (base 220) to top (base 170), the right arrow arc with
its head then the left arrow arc with its head, the lightning bolt, and the
border ring. -/
theorem claim5_paint_order :
    ∀ size : Nat,
      createIconOps size =
        discOps size ++ starOps size ++ backMountainOps size ++ frontMountainOps size
          ++ (cylinderOps size 220 ++ cylinderOps size 195 ++ cylinderOps size 170)
          ++ (rightArrowOps size ++ leftArrowOps size) ++ boltOps size ++ borderOps size
      ∧ rightArrowOps size =
          [DrawOp.line (pointsRight size) arrowColor (arrowArcWidth size),
           DrawOp.polygon (arrowHeadR.map (scalePt size)) arrowColor]
      ∧ leftArrowOps size =
          [DrawOp.line (pointsLeft size) arrowColor (arrowArcWidth size),
           DrawOp.polygon (arrowHeadL.map (scalePt size)) arrowColor]
      ∧ (discOps size).length = radiusN size
      ∧ (starOps size).length = 5 := by
  intro size
  refine ⟨?_, rightArrowOps_eq size, leftArrowOps_eq size, ?_, ?_⟩
  · simp [createIconOps, dbStackOps, List.append_assoc]
  · simp [discOps]
  · simp [starOps, starPositions]

/-- Claim C1: `main` hands only the largest rendered canvas,
`images[0] = create_icon 256`, to the file encoders — it is the payload of
both save calls — and a canvas rendered at any other requested size is never
written to any output. -/
theorem claim1_only_largest_canvas_saved :
    ∀ n : Nat, n ∈ iconSizes → n ≠ 256 →
      savedImages = [create_icon 256, create_icon 256]
      ∧ mainImages.headI = create_icon 256
      ∧ create_icon n ∉ savedImages := by
  intro n _ hne
  refine ⟨savedImages_eq, by simp [mainImages, iconSizes], ?_⟩
  intro hmem
  rw [savedImages_eq] at hmem
  have h3 : create_icon n = create_icon 256 := by
    rcases List.mem_cons.mp hmem with h | h
    · exact h
    · simpa using h
  have h4 : n = 256 := by
    have hw := congrArg Image.width h3
    rwa [create_icon_width, create_icon_width] at hw
  exact hne h4

/-- Witness for C1 at the second rendered size, 128. -/
theorem claim1_witness :
    (128 ∈ iconSizes ∧ (128 : Nat) ≠ 256)
    ∧ (savedImages = [create_icon 256, create_icon 256]
       ∧ mainImages.headI = create_icon 256
       ∧ create_icon 128 ∉ savedImages) :=
  ⟨⟨by decide, by decide⟩, claim1_only_largest_canvas_saved 128 (by decide) (by decide)⟩

/-- Claim C6: a run of `main` performs exactly two file-encoding calls and
produces two distinct output files: the PNG file holding the 256x256 icon,
and the ICO file encoded with the six sizes 256, 128, 64, 48, 32 and 16. -/
theorem claim6_exactly_two_encodings :
    (mainEffects.filter isSave).length = 2
    ∧ mainEffects.filterMap saveCall =
        [(pngPath, "PNG", none),
         (icoPath, "ICO", some [(256, 256), (128, 128), (64, 64), (48, 48), (32, 32), (16, 16)])]
    ∧ pngPath ≠ icoPath
    ∧ (create_icon 256).width = 256
    ∧ (create_icon 256).height = 256 := by
  refine ⟨?_, ?_, by decide, create_icon_width 256, create_icon_height 256⟩
  · simp [mainEffects, iconSizes, isSave]
  · simp [mainEffects, iconSizes, saveCall]

/-- Every inline `int(x * s)` of the script is the uniform scaling map. -/
theorem pyInt_sf_eq_scaleRef (size : Nat) (q : ℚ) :
    pyInt (q * sf size) = scaleRef size q := by
  unfold scaleRef sf
  rw [mul_div_assoc]

/-- `center = size // 2` agrees with uniformly scaling the reference 128. -/
theorem center_eq_scaleRef (size : Nat) : center size = scaleRef size 128 := by
  unfold center scaleRef
  have h : (128 : ℚ) * (size : ℚ) / 256 = ((size : ℕ) : ℚ) / ((2 : ℕ) : ℚ) := by
    push_cast
    ring
  rw [h, pyInt_of_nonneg (by positivity), Rat.floor_natCast_div_natCast, ← Int.natCast_div]

/-- At `size = 256` the scale factor is 1: every scaled integer reference
coordinate equals its hard-coded literal. -/
theorem scaleRef_at_256 (n : Nat) : scaleRef 256 (n : ℚ) = (n : Int) := by
  unfold scaleRef
  rw [show ((n : ℚ) * ((256 : ℕ) : ℚ) / 256) = (n : ℚ) by push_cast; ring,
    pyInt_of_nonneg (by positivity), Int.floor_natCast]

/-- Claim C7: every drawn coordinate is obtained from the hard-coded
256-reference geometry by one uniform scaling map — multiply by
`s = size/256` and truncate toward zero — including the `size // 2` center;
and at size 256 the map is the identity on the integer reference points, so
every scaled vertex list equals its hard-coded literal. -/
theorem claim7_uniform_scaling :
    ∀ size : Nat,
      (∀ q : ℚ, pyInt (q * sf size) = scaleRef size q)
      ∧ (∀ p : ℚ × ℚ, scalePt size p = (scaleRef size p.1, scaleRef size p.2))
      ∧ center size = scaleRef size 128
      ∧ radius size = scaleRef size 120
      ∧ (∀ n : Nat, scaleRef 256 (n : ℚ) = (n : Int))
      ∧ mountain1Points.map (scalePt 256) = [(30, 180), (90, 90), (130, 140), (170, 85), (230, 180)]
      ∧ mountain2Points.map (scalePt 256) =
          [(10, 200), (70, 120), (110, 160), (128, 130), (150, 155), (190, 115), (250, 200)]
      ∧ boltPoints.map (scalePt 256) =
          [(128, 40), (120, 70), (132, 70), (125, 95), (145, 60), (133, 60), (140, 40)]
      ∧ arrowHeadR.map (scalePt 256) = [(178, 140), (185, 148), (175, 150)]
      ∧ arrowHeadL.map (scalePt 256) = [(78, 205), (71, 197), (81, 195)] := by
  intro size
  refine ⟨pyInt_sf_eq_scaleRef size, ?_, center_eq_scaleRef size, pyInt_sf_eq_scaleRef size 120,
    scaleRef_at_256, by decide, by decide, by decide, by decide, by decide⟩
  intro p
  unfold scalePt
  rw [pyInt_sf_eq_scaleRef, pyInt_sf_eq_scaleRef]

/-- The gradient progress is nonnegative on the loop range. -/
theorem gradProgress_nonneg (radius r : Nat) (h2 : r ≤ radius) :
    0 ≤ gradProgress radius r := by
  unfold gradProgress
  apply div_nonneg
  · rw [sub_nonneg]
    exact_mod_cast h2
  · positivity

/-- The gradient progress stays below 1 on the loop range. -/
theorem gradProgress_lt_one (radius r : Nat) (h1 : 1 ≤ r) (h2 : r ≤ radius) :
    gradProgress radius r < 1 := by
  unfold gradProgress
  have hradius : (0 : ℚ) < (radius : ℚ) := by
    exact_mod_cast Nat.lt_of_lt_of_le h1 h2
  rw [div_lt_one hradius]
  have hr : (1 : ℚ) ≤ (r : ℚ) := by exact_mod_cast h1
  linarith

/-- Inner rings (smaller `r`) have larger progress. -/
theorem gradProgress_antitone (radius r r' : Nat) (h : r' ≤ r) :
    gradProgress radius r ≤ gradProgress radius r' := by
  unfold gradProgress
  rcases Nat.eq_zero_or_pos radius with h0 | h0
  · subst h0
    simp
  · have hc : (0 : ℚ) < (radius : ℚ) := by exact_mod_cast h0
    rw [div_le_div_iff_of_pos_right hc]
    have hcast : (r' : ℚ) ≤ (r : ℚ) := by exact_mod_cast h
    linarith

/-- Each gradient channel lies between its top and bottom reference values. -/
theorem gradChannel_bounds (radius r ct cb : Nat) (h1 : 1 ≤ r) (h2 : r ≤ radius)
    (hcc : ct ≤ cb) :
    ct ≤ gradChannel radius r ct cb ∧ gradChannel radius r ct cb ≤ cb := by
  unfold gradChannel
  have hp0 : 0 ≤ gradProgress radius r := gradProgress_nonneg radius r h2
  have hp1 : gradProgress radius r < 1 := gradProgress_lt_one radius r h1 h2
  have hd : (0 : ℚ) ≤ (cb : ℚ) - (ct : ℚ) := by
    rw [sub_nonneg]
    exact_mod_cast hcc
  have hval0 : (ct : ℚ) ≤ (ct : ℚ) + ((cb : ℚ) - (ct : ℚ)) * gradProgress radius r :=
    le_add_of_nonneg_right (mul_nonneg hd hp0)
  have hval1 : (ct : ℚ) + ((cb : ℚ) - (ct : ℚ)) * gradProgress radius r ≤ (cb : ℚ) := by
    have hm : ((cb : ℚ) - (ct : ℚ)) * gradProgress radius r ≤ ((cb : ℚ) - (ct : ℚ)) * 1 :=
      mul_le_mul_of_nonneg_left (le_of_lt hp1) hd
    linarith
  rw [pyInt_of_nonneg (le_trans (by positivity) hval0)]
  have h5 : (ct : ℤ) ≤ ⌊(ct : ℚ) + ((cb : ℚ) - (ct : ℚ)) * gradProgress radius r⌋ :=
    Int.le_floor.mpr (by exact_mod_cast hval0)
  have h6 : ⌊(ct : ℚ) + ((cb : ℚ) - (ct : ℚ)) * gradProgress radius r⌋ ≤ (cb : ℤ) := by
    calc ⌊(ct : ℚ) + ((cb : ℚ) - (ct : ℚ)) * gradProgress radius r⌋
        ≤ ⌊(cb : ℚ)⌋ := Int.floor_le_floor hval1
      _ = (cb : ℤ) := Int.floor_natCast cb
  omega

/-- Channel values do not decrease as the rings shrink toward the center. -/
theorem gradChannel_antitone (radius r r' ct cb : Nat) (_h1' : 1 ≤ r') (h : r' ≤ r)
    (h2 : r ≤ radius) (hcc : ct ≤ cb) :
    gradChannel radius r ct cb ≤ gradChannel radius r' ct cb := by
  unfold gradChannel
  have hd : (0 : ℚ) ≤ (cb : ℚ) - (ct : ℚ) := by
    rw [sub_nonneg]
    exact_mod_cast hcc
  have hct : (0 : ℚ) ≤ (ct : ℚ) := Nat.cast_nonneg ct
  have hmono := gradProgress_antitone radius r r' h
  have hv : (ct : ℚ) + ((cb : ℚ) - (ct : ℚ)) * gradProgress radius r
      ≤ (ct : ℚ) + ((cb : ℚ) - (ct : ℚ)) * gradProgress radius r' := by
    have hm := mul_le_mul_of_nonneg_left hmono hd
    linarith
  have h0r : (0 : ℚ) ≤ (ct : ℚ) + ((cb : ℚ) - (ct : ℚ)) * gradProgress radius r := by
    have hm := mul_nonneg hd (gradProgress_nonneg radius r h2)
    linarith
  have h0r' : (0 : ℚ) ≤ (ct : ℚ) + ((cb : ℚ) - (ct : ℚ)) * gradProgress radius r' := by
    have hm := mul_nonneg hd (gradProgress_nonneg radius r' (le_trans h h2))
    linarith
  rw [pyInt_of_nonneg h0r, pyInt_of_nonneg h0r']
  exact Int.toNat_le_toNat (Int.floor_le_floor hv)

/-- Claim C2: the background disc is a gradient fill: for every ring radius
`r` of the loop, the corresponding filled ellipse is among the disc's draw
calls; its fill has full alpha 255, every channel lies between the dark top
color (26, 31, 53) and the lighter bottom color (74, 100, 145), and moving
inward (smaller `r`, hence larger progress) never decreases a channel, so the
fill varies monotonically from the top color at the rim toward the bottom
color at the center — the pixels of each ring receive that ring's fill. -/
theorem claim2_gradient_disc_fill :
    ∀ size r : Nat, 1 ≤ r → r ≤ radiusN size →
      (DrawOp.ellipse (center size - (r : Int)) (center size - (r : Int))
          (center size + (r : Int)) (center size + (r : Int))
          (gradFill (radiusN size) r) ∈ discOps size)
      ∧ (gradFill (radiusN size) r).2.2.2 = 255
      ∧ 26 ≤ (gradFill (radiusN size) r).1
      ∧ (gradFill (radiusN size) r).1 ≤ 74
      ∧ 31 ≤ (gradFill (radiusN size) r).2.1
      ∧ (gradFill (radiusN size) r).2.1 ≤ 100
      ∧ 53 ≤ (gradFill (radiusN size) r).2.2.1
      ∧ (gradFill (radiusN size) r).2.2.1 ≤ 145
      ∧ (∀ r' : Nat, 1 ≤ r' → r' ≤ r →
          (gradFill (radiusN size) r).1 ≤ (gradFill (radiusN size) r').1
          ∧ (gradFill (radiusN size) r).2.1 ≤ (gradFill (radiusN size) r').2.1
          ∧ (gradFill (radiusN size) r).2.2.1 ≤ (gradFill (radiusN size) r').2.2.1) := by
  intro size r h1 h2
  refine ⟨?_, rfl, (gradChannel_bounds _ r 26 74 h1 h2 (by norm_num)).1,
    (gradChannel_bounds _ r 26 74 h1 h2 (by norm_num)).2,
    (gradChannel_bounds _ r 31 100 h1 h2 (by norm_num)).1,
    (gradChannel_bounds _ r 31 100 h1 h2 (by norm_num)).2,
    (gradChannel_bounds _ r 53 145 h1 h2 (by norm_num)).1,
    (gradChannel_bounds _ r 53 145 h1 h2 (by norm_num)).2, ?_⟩
  · unfold discOps
    refine List.mem_map.mpr ⟨radiusN size - r, List.mem_range.mpr (by omega), ?_⟩
    simp only [Nat.sub_sub_self h2]
  · intro r' h1' hr'
    exact ⟨gradChannel_antitone _ r r' 26 74 h1' hr' h2 (by norm_num),
      gradChannel_antitone _ r r' 31 100 h1' hr' h2 (by norm_num),
      gradChannel_antitone _ r r' 53 145 h1' hr' h2 (by norm_num)⟩

/-- Witness for C2 at size 256, outermost ring r = 120. -/
theorem claim2_witness :
    1 ≤ 120 ∧ 120 ≤ radiusN 256
    ∧ (gradFill (radiusN 256) 120).2.2.2 = 255
    ∧ 26 ≤ (gradFill (radiusN 256) 120).1
    ∧ (gradFill (radiusN 256) 120).1 ≤ 74 :=
  ⟨by decide, by decide,
   (claim2_gradient_disc_fill 256 120 (by decide) (by decide)).2.1,
   (claim2_gradient_disc_fill 256 120 (by decide) (by decide)).2.2.1,
   (claim2_gradient_disc_fill 256 120 (by decide) (by decide)).2.2.2.1⟩

end IconGen
